import Mathlib

/-!
Shallow embedding of the core of the clifm repository (src/src/sort.c and
src/src/trash.c) and proofs about it.

C strings are modelled as `List Nat` holding the bytes of the string up to
(but not including) the terminating NUL.  Machine integers are modelled as
`Int`/`Nat` with explicit 32-bit wrap-around where overflow matters.
Stateful filesystem code is modelled with explicit state passing; outcomes
of system calls (chdir, rm, rename, fopen) are supplied as explicit
oracle parameters.
-/

set_option maxRecDepth 10000

namespace Clifm

/-! ### Byte-level helpers (helpers.h macros and libc string functions) -/

/-- IS_DIGIT from helpers.h: `c >= '0' && c <= '9'`. -/
def isDigitB (b : Nat) : Bool := 48 ≤ b && b ≤ 57

/-- lowercase ASCII letter test (the IS_ALPHA part of the skip condition). -/
def isLowerB (b : Nat) : Bool := 97 ≤ b && b ≤ 122

/-- uppercase ASCII letter test (the `c >= 'A' && c <= 'Z'` part). -/
def isUpperB (b : Nat) : Bool := 65 ≤ b && b ≤ 90

/-- TOUPPER from helpers.h: map a lowercase ASCII letter to uppercase. -/
def toupperB (b : Nat) : Nat := if 97 ≤ b ∧ b ≤ 122 then b - 32 else b

/-- tolower as used by strcasecmp(3): map an uppercase ASCII letter down. -/
def tolowerB (b : Nat) : Nat := if 65 ≤ b ∧ b ≤ 90 then b + 32 else b

/-- Value of a byte read through a (signed) `char`, as on x86. -/
def sbyte (b : Nat) : Int := if b < 128 then (b : Int) else (b : Int) - 256

/-- `(c & 0xc0) == 0xc0`: the byte starts a multi-byte UTF-8 sequence. -/
def isLeadB (b : Nat) : Bool := b.land 192 == 192

/-- First byte of a C string; the terminating NUL (0) when the string is
empty. -/
def c0 (l : List Nat) : Nat := l.headD 0

/-- A byte string: every element fits in an unsigned char. -/
def ValidName (l : List Nat) : Prop := ∀ b ∈ l, b < 256

/-- strcmp(3): byte-wise comparison, returning the difference of the first
pair of differing bytes (unsigned-char difference, as in glibc). -/
def strcmp : List Nat → List Nat → Int
  | [], [] => 0
  | [], b :: _ => -(b : Int)
  | a :: _, [] => (a : Int)
  | a :: as, b :: bs => if a = b then strcmp as bs else (a : Int) - (b : Int)

/-- strcoll(3) under the C locale coincides with strcmp(3); the embedding
fixes the C locale. -/
def strcoll (a b : List Nat) : Int := strcmp a b

/-- strcasecmp(3): compare the tolower image of each byte, stopping at the
first pair whose lowered values differ (glibc semantics). -/
def strcasecmp (a b : List Nat) : Int := strcmp (a.map tolowerB) (b.map tolowerB)

/-! ### src/src/sort.c -/

/-- skip_name_prefixes (sort.c:81-98): advance past every leading byte that
is neither an ASCII digit, nor a lowercase letter, nor an uppercase letter;
if that consumes the whole string, fall back to the original string. -/
def skip_name_prefixes (l : List Nat) : List Nat :=
  let s := l.dropWhile (fun b => !(isDigitB b || isLowerB b || isUpperB b))
  if s.isEmpty then l else s

/-- Leading decimal-digit run of a byte string. -/
def digitRun (l : List Nat) : List Nat := l.takeWhile isDigitB

/-- Decimal value of a digit run. -/
def parseDec (l : List Nat) : Nat := l.foldl (fun acc d => acc * 10 + (d - 48)) 0

/-- strtoll(s, _, 10) on a string whose first byte is a decimal digit:
the value of the leading digit run, saturating at LLONG_MAX. -/
def strtoll10 (l : List Nat) : Int :=
  (Nat.min (parseDec (digitRun l)) (2 ^ 63 - 1) : Nat)

/-- namecmp (sort.c:117-155).  `cs` is conf.case_sens_list. -/
def namecmp (cs : Bool) (x y : List Nat) : Int :=
  let s1 := skip_name_prefixes x
  let s2 := skip_name_prefixes y
  -- sort.c:124-132: if both strings start with a digit, compare the leading
  -- integer runs numerically; on a tie fall through
  let d : Int :=
    if isDigitB (c0 s1) && isDigitB (c0 s2) then
      let n1 := strtoll10 s1
      let n2 := strtoll10 s2
      if n1 < n2 then -1 else if n2 < n1 then 1 else 0
    else 0
  if d ≠ 0 then d
  else
    let u1 := isLeadB (c0 s1)
    let u2 := isLeadB (c0 s2)
    -- sort.c:136-149: when neither string starts a multi-byte sequence,
    -- compare the first bytes (upper-cased unless case sensitive), read
    -- through signed char
    let e : Int :=
      if !u1 && !u2 then
        let ac := sbyte (if cs then c0 s1 else toupperB (c0 s1))
        let bc := sbyte (if cs then c0 s2 else toupperB (c0 s2))
        if ac < bc then -1 else if bc < ac then 1 else 0
      else 0
    if e ≠ 0 then e
    -- sort.c:151-154: full-string fallback
    else if !cs || u1 || u2 then strcoll s1 s2 else strcmp s1 s2

/-- compare_strings (sort.c:100-115), HAVE_STRCOLL branch: the source reads
`return strcoll(*s2, *s2);`, passing the second string as both arguments. -/
def compare_strings (s1 s2 : List Nat) : Int := strcoll s2 s2

/-- sort_by_size (sort.c:157-176). -/
def sort_by_size (as bs : Int) : Int := if as > bs then 1 else if as < bs then -1 else 0

/-- sort_by_time (sort.c:204-217). -/
def sort_by_time (a b : Int) : Int := if a > b then 1 else if a < b then -1 else 0

/-- sort_by_inode (sort.c:219-232). -/
def sort_by_inode (a b : Nat) : Int := if a > b then 1 else if a < b then -1 else 0

/-- sort_by_owner (sort.c:234-247). -/
def sort_by_owner (a b : Nat) : Int := if a > b then 1 else if a < b then -1 else 0

/-- sort_by_group (sort.c:249-262). -/
def sort_by_group (a b : Nat) : Int := if a > b then 1 else if a < b then -1 else 0

/-- Extension of a file name as computed by sort_by_extension
(sort.c:178-202): the substring after the last dot, provided that dot is
not the very first character (`val && val != n1`). -/
def extOf (n : List Nat) : Option (List Nat) :=
  if (n.drop 1).contains 46 then
    some ((n.reverse.takeWhile (fun b => b ≠ 46)).reverse)
  else none

/-- sort_by_extension (sort.c:178-202). -/
def sort_by_extension (n1 n2 : List Nat) : Int :=
  match extOf n1, extOf n2 with
  | none, none => 0
  | none, some _ => -1
  | some _, none => 1
  | some a, some b => strcasecmp a b

/-- sort_dirs (sort.c:264-274): `a`/`b` are the fileinfo.dir flags. -/
def sort_dirs (a b : Bool) : Int :=
  if b ≠ a then (if b then 1 else -1) else 0

/-- Sorting methods (SNONE..SGRP constants from helpers.h). -/
inductive SortKey where
  | SNONE | SNAME | STSIZE | SATIME | SBTIME | SCTIME | SMTIME
  | SVER | SEXT | SINO | SOWN | SGRP
deriving DecidableEq

export SortKey (SNONE SNAME STSIZE SATIME SBTIME SCTIME SMTIME SVER SEXT SINO SOWN SGRP)

/-- The parts of the global `conf` structure read by entrycmp/namecmp. -/
structure Conf where
  sort : SortKey
  sort_reverse : Bool
  list_dirs_first : Bool
  case_sens_list : Bool
  light_mode : Bool

/-- The parts of `struct fileinfo` read by entrycmp. -/
structure Fileinfo where
  name : List Nat
  dir : Bool
  size : Int
  time : Int
  inode : Nat
  uid : Nat
  gid : Nat

/-- Modelled from the spec: `xstrverscmp` lives in aux.c, which is not part
of the provided sources.  The spec describes it as "a natural compare that
treats embedded digit runs as numbers (img2 < img10), not lexically"; this
models that behaviour, returning -1/0/1.  Fuel-based recursion; the fuel
`a.length + b.length + 1` always suffices. -/
def natvers_go : Nat → List Nat → List Nat → Int
  | 0, _, _ => 0
  | _ + 1, [], [] => 0
  | _ + 1, [], _ :: _ => -1
  | _ + 1, _ :: _, [] => 1
  | f + 1, a :: as, b :: bs =>
    if isDigitB a && isDigitB b then
      let r1 := digitRun (a :: as)
      let r2 := digitRun (b :: bs)
      if parseDec r1 < parseDec r2 then -1
      else if parseDec r2 < parseDec r1 then 1
      else natvers_go f ((a :: as).drop r1.length) ((b :: bs).drop r2.length)
    else if a = b then natvers_go f as bs
    else if (a : Int) < (b : Int) then -1 else 1

/-- Modelled from the spec: natural version comparison (see natvers_go). -/
def xstrverscmp (a b : List Nat) : Int := natvers_go (a.length + b.length + 1) a b

/-- The key-comparator part of entrycmp (sort.c:289-307): the value of
`ret` right before the reverse step, including the light-mode degradation
of owner/group sorting and the namecmp fallback on ties. -/
def entrycmp_key_ret (cfg : Conf) (a b : Fileinfo) : Int :=
  let st := if cfg.light_mode ∧ (cfg.sort = SOWN ∨ cfg.sort = SGRP) then SNAME else cfg.sort
  let r : Int :=
    match st with
    | STSIZE => sort_by_size a.size b.size
    | SATIME | SBTIME | SCTIME | SMTIME => sort_by_time a.time b.time
    | SVER => xstrverscmp a.name b.name
    | SEXT => sort_by_extension a.name b.name
    | SINO => sort_by_inode a.inode b.inode
    | SOWN => sort_by_owner a.uid b.uid
    | SGRP => sort_by_group a.gid b.gid
    | _ => 0
  if r = 0 then namecmp cfg.case_sens_list a.name b.name else r

/-- Reduce an integer to the value of a 32-bit two's-complement `int`. -/
def toInt32 (n : Int) : Int := (n + 2 ^ 31) % 2 ^ 32 - 2 ^ 31

/-- The reverse step `ret - (ret * 2)` (sort.c:311), with 32-bit
wrap-around semantics made explicit. -/
def rev_ret (r : Int) : Int := toInt32 (r - toInt32 (r * 2))

/-- entrycmp (sort.c:276-312). -/
def entrycmp (cfg : Conf) (a b : Fileinfo) : Int :=
  -- sort.c:283-287: directories first; a non-zero result returns
  -- immediately, before the reverse step
  let d := if cfg.list_dirs_first then sort_dirs a.dir b.dir else 0
  if d ≠ 0 then d
  else if !cfg.sort_reverse then entrycmp_key_ret cfg a b
  else rev_ret (entrycmp_key_ret cfg a b)

/-! ### src/src/trash.c -/

/-- NAME_MAX on the target platform (trash.c:390 names it as 255). -/
def NAME_MAX : Nat := 255

/-- The file-name truncation of trash_file (trash.c:389-406): when
`filename.suffix.trashinfo` would be longer than NAME_MAX, cut SIZE bytes
off the original file name and terminate it with a tilde.
`size = filename_len + suffix_len + 11 - NAME_MAX`; when positive, the
bytes at indices `filename_len - size - 1` and `filename_len - size`
become '~' (126) and NUL. -/
def trim_trash_filename (filename : List Nat) (suffix_len : Nat) : List Nat :=
  let size : Int := (filename.length : Int) + suffix_len + 11 - NAME_MAX
  if size > 0 then
    filename.take (filename.length - size.toNat - 1) ++ [126]
  else filename

/-- Decimal digits of a natural number, most significant first, no leading
zeros (the digit production of printf's %d).  Fuel-based recursion; fuel
`n + 1` always suffices. -/
def natDigitsAux : Nat → Nat → List Nat
  | 0, _ => []
  | f + 1, n => if n < 10 then [48 + n] else natDigitsAux f (n / 10) ++ [48 + n % 10]

/-- printf %d conversion: decimal digits without any zero-padding, with a
leading '-' (45) for negative values. -/
def fmtD (i : Int) : List Nat :=
  if i < 0 then 45 :: natDigitsAux ((-i).toNat + 1) (-i).toNat
  else natDigitsAux (i.toNat + 1) i.toNat

/-- Modelled from the spec: `url_encode` lives in aux.c, which is not part
of the provided sources.  The spec and the call-site comment
(trash.c:454) describe it as percent-encoding the path to URL format
(RFC 2396): alphanumerics and the marks `-`, `_`, `.`, `~` and the path
separator `/` stay as they are, every other byte becomes `%XY` with
uppercase hexadecimal digits. -/
def urlUnreservedB (b : Nat) : Bool :=
  isDigitB b || isLowerB b || isUpperB b || b == 45 || b == 95 || b == 46 || b == 126 || b == 47

/-- One hexadecimal digit, uppercase. -/
def hexDigit (n : Nat) : Nat := if n < 10 then 48 + n else 55 + n

/-- Modelled from the spec: url_encode (see urlUnreservedB). -/
def url_encode (p : List Nat) : List Nat :=
  p.foldr
    (fun b acc =>
      (if urlUnreservedB b then [b] else [37, hexDigit (b / 16), hexDigit (b % 16)]) ++ acc)
    []

/-- "[Trash Info]" as bytes. -/
def TRASH_INFO_HEADER : List Nat := [91, 84, 114, 97, 115, 104, 32, 73, 110, 102, 111, 93]

/-- "Path=" as bytes. -/
def PATH_EQ : List Nat := [80, 97, 116, 104, 61]

/-- "DeletionDate=" as bytes. -/
def DELETIONDATE_EQ : List Nat :=
  [68, 101, 108, 101, 116, 105, 111, 110, 68, 97, 116, 101, 61]

/-- The fields of `struct tm` used by trash_file. -/
structure Tm where
  tm_year : Int
  tm_mon : Int
  tm_mday : Int
  tm_hour : Int
  tm_min : Int
  tm_sec : Int

/-- The bytes written to the .trashinfo sidecar by trash_file
(trash.c:462-465):
`fprintf(info_fp, "[Trash Info]\nPath=%s\nDeletionDate=%d-%d-%dT%d:%d:%d\n",
url_str, tm->tm_year + 1900, tm->tm_mon + 1, tm->tm_mday, tm->tm_hour,
tm->tm_min, tm->tm_sec)` where `url_str = url_encode(tmpfile)`.
Byte 10 is the newline, 45 '-', 84 'T', 58 ':'. -/
def trashinfo_content (tmpfile : List Nat) (tm : Tm) : List Nat :=
  TRASH_INFO_HEADER ++ [10] ++
  PATH_EQ ++ url_encode tmpfile ++ [10] ++
  DELETIONDATE_EQ ++
    fmtD (tm.tm_year + 1900) ++ [45] ++ fmtD (tm.tm_mon + 1) ++ [45] ++
    fmtD tm.tm_mday ++ [84] ++ fmtD tm.tm_hour ++ [58] ++ fmtD tm.tm_min ++ [58] ++
    fmtD tm.tm_sec ++ [10]

/-- Split a byte stream into the lines delivered by successive fgets(3)
calls (newline bytes removed, no final empty line after a trailing
newline).  `cur` is the current line accumulated in reverse. -/
def split_nl (cur : List Nat) : List Nat → List (List Nat)
  | [] => if cur.isEmpty then [] else [cur.reverse]
  | b :: rest => if b = 10 then cur.reverse :: split_nl [] rest else split_nl (b :: cur) rest

/-- Lines of a byte stream, as read by the fgets loop of untrash_file. -/
def lines_of (l : List Nat) : List (List Nat) := split_nl [] l

/-- The Path-extraction loop of untrash_file (trash.c:732-755): scan every
line, remember the value after `Path=` of the last matching line, strip the
trailing newline, and fail when no (or an empty) value was found. -/
def info_get_path (content : List Nat) : Option (List Nat) :=
  match ((lines_of content).filter (fun l => PATH_EQ.isPrefixOf l)).getLast? with
  | none => none
  | some l =>
    let v := l.drop PATH_EQ.length
    if v.isEmpty then none else some v

/-! #### State models of the trash operations

Exit codes: EXIT_SUCCESS = 0, EXIT_FAILURE = 1.  errno values:
ENOENT = 2, EACCES = 13, EEXIST = 17. -/

/-- Environment of one trash_clear run (trash.c:262-330): the outcome of
every external call it makes. -/
structure ClearEnv where
  /-- workspaces[cur_ws].path: the working directory on entry. -/
  origCwd : List Nat
  /-- trash_files_dir. -/
  trashFilesDir : List Nat
  /-- scandir(trash_files_dir, ..., skip_files, xalphasort) result ("." and
  ".." already filtered out by skip_files). -/
  entries : List (List Nat)
  /-- outcome of `xchdir(trash_files_dir)`. -/
  chdirTrashOk : Bool
  /-- outcome of `xchdir(workspaces[cur_ws].path)`. -/
  chdirBackOk : Bool
  /-- outcome of `rm -rf` per trashed entry. -/
  rmOk : List Nat → Bool

/-- trash_clear (trash.c:262-330), modelled as (exit status, final working
directory).  The working directory on entry is `e.origCwd`. -/
def trash_clear (e : ClearEnv) : Int × List Nat :=
  -- trash.c:268-272: chdir into the trash files dir; on failure return
  -- EXIT_FAILURE with the cwd unchanged
  if !e.chdirTrashOk then (1, e.origCwd)
  else
    -- trash.c:274-279: scandir; when it reports no entries, print
    -- "No trashed files" and return EXIT_SUCCESS -- without changing back
    if e.entries.isEmpty then (0, e.trashFilesDir)
    else
      -- trash.c:281-315: remove every entry pair with rm -rf
      let anyFail := e.entries.any (fun n => !e.rmOk n)
      -- trash.c:317-321: chdir back; on failure return EXIT_FAILURE
      if !e.chdirBackOk then (1, e.trashFilesDir)
      else ((if anyFail then 1 else 0), e.origCwd)

/-- Environment of one list_trashed_files run (trash.c:1050-1089). -/
structure ListEnv where
  origCwd : List Nat
  trashFilesDir : List Nat
  /-- scandir returns -1. -/
  scandirFails : Bool
  entries : List (List Nat)
  chdirTrashOk : Bool
  chdirBackOk : Bool

/-- list_trashed_files (trash.c:1050-1089), modelled as (return value,
final working directory). -/
def list_trashed_files (e : ListEnv) : Int × List Nat :=
  -- trash.c:1053-1057
  if !e.chdirTrashOk then (1, e.origCwd)
  -- trash.c:1064-1067: scandir error: return EXIT_FAILURE, no chdir back
  else if e.scandirFails then (1, e.trashFilesDir)
  -- trash.c:1068-1071: no trashed files: return -1, no chdir back
  else if e.entries.isEmpty then (-1, e.trashFilesDir)
  -- trash.c:1073-1086: print the list, then chdir back
  else if !e.chdirBackOk then (1, e.trashFilesDir)
  else (0, e.origCwd)

/-- Environment of the sidecar-writing phase of trash_file
(trash.c:440-474), entered right after the file was successfully moved
into files/. -/
structure TrashFileEnv where
  /-- outcome of `open_fwrite(info_file)` (trash.c:446). -/
  openInfoOk : Bool
  /-- outcome of `url_encode(tmpfile)` (trash.c:455). -/
  urlEncodeOk : Bool
  /-- outcome of the `rm -rf` issued by del_trash_file_and_exit
  (trash.c:339-340). -/
  rmRollbackOk : Bool

/-- Result of the sidecar-writing phase of trash_file. -/
structure TrashFileOut where
  /-- the value trash_file returns. -/
  status : Int
  /-- does files/ still hold the just-moved file? -/
  fileInFilesDir : Bool
  /-- does info/<name>.trashinfo exist (possibly empty)? -/
  infoFileExists : Bool
deriving DecidableEq

/-- trash_file from the point where renameat/mv succeeded
(trash.c:440-474), together with del_trash_file_and_exit
(trash.c:332-352). -/
def trash_file_after_move (e : TrashFileEnv) : TrashFileOut :=
  if !e.openInfoOk then
    -- trash.c:447-450: opening the info file failed; trash_file returns
    -- del_trash_file_and_exit's value, which is the exit status of the
    -- `rm -rf` that removes the just-moved file (trash.c:340-351)
    if e.rmRollbackOk then { status := 0, fileInFilesDir := false, infoFileExists := false }
    else { status := 1, fileInFilesDir := true, infoFileExists := false }
  else if !e.urlEncodeOk then
    -- trash.c:456-460: encoding failed; EXIT_FAILURE via the END label,
    -- leaving the moved file in files/ and the freshly created (empty)
    -- info file behind
    { status := 1, fileInFilesDir := true, infoFileExists := true }
  else
    -- trash.c:462-473: write the sidecar and return EXIT_SUCCESS
    { status := 0, fileInFilesDir := true, infoFileExists := true }

/-- Environment of one untrash_file run (trash.c:708-829). -/
structure UndelEnv where
  /-- the `Path=` value parsed from the sidecar (none: missing or empty). -/
  pathField : Option (List Nat)
  /-- outcome of `url_decode(orig_path)` (trash.c:758). -/
  urlDecodeOk : Bool
  /-- the parent of the destination could be derived (trash.c:770-783). -/
  parentDeriveOk : Bool
  /-- outcome of `access(parent, F_OK | X_OK | W_OK)` (trash.c:785). -/
  parentAccessOk : Bool
  /-- outcome of `renameat(undel_file, url_decoded)` (trash.c:801). -/
  renameOk : Bool
  /-- errno of a failed renameat was EXDEV (trash.c:803). -/
  crossDevice : Bool
  /-- outcome of the `mv` fallback (trash.c:806-807). -/
  mvOk : Bool
  /-- outcome of the `rm -rf` of the info file (trash.c:821-822). -/
  rmInfoOk : Bool

/-- The filesystem state touched by untrash_file, for one trashed item. -/
structure UndelState where
  /-- files/<name> exists. -/
  fileInTrash : Bool
  /-- info/<name>.trashinfo exists (fopen at trash.c:720 succeeds iff so). -/
  infoInTrash : Bool
  /-- a file already occupies the decoded original path (the stat at
  trash.c:795 succeeds iff so). -/
  destOnDisk : Bool
deriving DecidableEq

/-- untrash_file (trash.c:708-829), modelled as (return value, new state). -/
def untrash_file (e : UndelEnv) (st : UndelState) : Int × UndelState :=
  -- trash.c:720-725: no info file: report and return errno (ENOENT)
  if !st.infoInTrash then (2, st)
  else
    match e.pathField with
    -- trash.c:744-750: NULL or empty Path value: EXIT_FAILURE
    | none => (1, st)
    | some _ =>
      -- trash.c:758-763: URL decoding failed: EXIT_FAILURE
      if !e.urlDecodeOk then (1, st)
      -- trash.c:770-783: parent could not be derived: EXIT_FAILURE
      else if !e.parentDeriveOk then (1, st)
      -- trash.c:785-790: parent not accessible: return errno (EACCES)
      else if !e.parentAccessOk then (13, st)
      -- trash.c:794-799: destination already exists: return EEXIST
      else if st.destOnDisk then (17, st)
      else if e.renameOk then
        -- trash.c:801: the file is back at its original path; then
        -- trash.c:821-826: remove the info file
        let st1 : UndelState := { fileInTrash := false, infoInTrash := true, destOnDisk := true }
        if e.rmInfoOk then (0, { st1 with infoInTrash := false }) else (1, st1)
      else if e.crossDevice then
        if e.mvOk then
          let st1 : UndelState := { fileInTrash := false, infoInTrash := true, destOnDisk := true }
          if e.rmInfoOk then (0, { st1 with infoInTrash := false }) else (1, st1)
        -- trash.c:808-811: mv failed: return its status
        else (1, st)
      -- trash.c:812-816: renameat failed with another errno: return it
      else (13, st)

/-! ### Helper lemmas -/

/-- strcmp of a string against itself is zero. -/
theorem strcmp_self (s : List Nat) : strcmp s s = 0 := by
  induction s with
  | nil => rfl
  | cons a as ih => simp [strcmp, ih]

/-! ### Claims -/

/-- C10: the qsort string comparator compare_strings, compiled with
HAVE_STRCOLL, returns zero for every pair of input strings: sort.c:105
calls `strcoll(*s2, *s2)`, handing the second string as both arguments, so
no two strings are ever distinguished in that configuration. -/
theorem spec_C10_compare_strings_zero (s1 s2 : List Nat) :
    compare_strings s1 s2 = 0 := by
  simpa [compare_strings, strcoll] using strcmp_self s2

/-- C4: with list_dirs_first enabled, entrycmp puts a directory before a
non-directory for every sort key and every setting of the remaining
configuration flags: sort_dirs decides and its non-zero result is returned
at once (sort.c:283-287), before the key comparator and before the
reverse step. -/
theorem spec_C4_dirs_first (cfg : Conf) (a b : Fileinfo)
    (h1 : cfg.list_dirs_first = true) (h2 : a.dir = true) (h3 : b.dir = false) :
    entrycmp cfg a b = -1 ∧ entrycmp cfg b a = 1 := by
  constructor <;> simp [entrycmp, sort_dirs, h1, h2, h3]

/-- Witness for C4 at a concrete configuration and entry pair. -/
theorem spec_C4_dirs_first_witness :
    (⟨SNAME, true, true, true, false⟩ : Conf).list_dirs_first = true ∧
    (⟨[98], true, 0, 0, 0, 0, 0⟩ : Fileinfo).dir = true ∧
    (⟨[97], false, 0, 0, 0, 0, 0⟩ : Fileinfo).dir = false ∧
    (entrycmp ⟨SNAME, true, true, true, false⟩ ⟨[98], true, 0, 0, 0, 0, 0⟩
        ⟨[97], false, 0, 0, 0, 0, 0⟩ = -1 ∧
      entrycmp ⟨SNAME, true, true, true, false⟩ ⟨[97], false, 0, 0, 0, 0, 0⟩
        ⟨[98], true, 0, 0, 0, 0, 0⟩ = 1) :=
  ⟨rfl, rfl, rfl,
    spec_C4_dirs_first ⟨SNAME, true, true, true, false⟩
      ⟨[98], true, 0, 0, 0, 0, 0⟩ ⟨[97], false, 0, 0, 0, 0, 0⟩ rfl rfl rfl⟩

/-- C2 (code bug): trash_clear, entered from the working directory
"/home/u" ([47,104,111,109,101]), chdirs into the trash files directory
"/t/files" ([47,116,47,102]) and, when the trash can is empty, returns
EXIT_SUCCESS while the working directory is still the trash files
directory (trash.c:276-279 returns before the restoring xchdir at
trash.c:317); list_trashed_files does the same on its empty branch
(trash.c:1068-1071).  The spec requires the previous working directory to
be restored on every exit path. -/
theorem spec_C2_cwd_not_restored :
    trash_clear
        { origCwd := [47, 104, 111, 109, 101], trashFilesDir := [47, 116, 47, 102],
          entries := [], chdirTrashOk := true, chdirBackOk := true,
          rmOk := fun _ => true } =
      (0, [47, 116, 47, 102]) ∧
    list_trashed_files
        { origCwd := [47, 104, 111, 109, 101], trashFilesDir := [47, 116, 47, 102],
          scandirFails := false, entries := [], chdirTrashOk := true,
          chdirBackOk := true } =
      (-1, [47, 116, 47, 102]) ∧
    ([47, 116, 47, 102] : List Nat) ≠ [47, 104, 111, 109, 101] :=
  ⟨rfl, rfl, by decide⟩

/-- C3 (code bug): when the file has already been moved into files/ and
opening the sidecar info file fails, trash_file hands back the result of
del_trash_file_and_exit, which is the exit status of the rollback
`rm -rf` (trash.c:340-351).  When that rm succeeds the just-moved file is
indeed deleted back out of files/, but trash_file returns 0
(EXIT_SUCCESS), so the operation reports success — the claim requires it
to report failure. -/
theorem spec_C3_sidecar_failure_returns_success :
    trash_file_after_move { openInfoOk := false, urlEncodeOk := true, rmRollbackOk := true } =
      { status := 0, fileInFilesDir := false, infoFileExists := false } := rfl

/-- C7: when the sidecar is present and readable, its Path value decodes,
the destination's parent is accessible, and a file already occupies the
decoded original path, untrash_file returns EEXIST (17) and leaves the
whole state — the files/ entry, the info/ sidecar, and the destination —
unchanged (trash.c:794-799). -/
theorem spec_C7_untrash_collision (e : UndelEnv) (st : UndelState) (p : List Nat)
    (hinfo : st.infoInTrash = true) (hpath : e.pathField = some p)
    (hdec : e.urlDecodeOk = true) (hpd : e.parentDeriveOk = true)
    (hpa : e.parentAccessOk = true) (hdest : st.destOnDisk = true) :
    untrash_file e st = (17, st) := by
  simp [untrash_file, hinfo, hpath, hdec, hpd, hpa, hdest]

/-- Witness for C7 at a concrete environment and state. -/
theorem spec_C7_untrash_collision_witness :
    (⟨true, true, true⟩ : UndelState).infoInTrash = true ∧
    (⟨some [47, 120], true, true, true, true, false, true, true⟩ : UndelEnv).pathField =
      some [47, 120] ∧
    (⟨some [47, 120], true, true, true, true, false, true, true⟩ : UndelEnv).urlDecodeOk = true ∧
    (⟨some [47, 120], true, true, true, true, false, true, true⟩ : UndelEnv).parentDeriveOk = true ∧
    (⟨some [47, 120], true, true, true, true, false, true, true⟩ : UndelEnv).parentAccessOk = true ∧
    (⟨true, true, true⟩ : UndelState).destOnDisk = true ∧
    untrash_file ⟨some [47, 120], true, true, true, true, false, true, true⟩ ⟨true, true, true⟩ =
      (17, ⟨true, true, true⟩) :=
  ⟨rfl, rfl, rfl, rfl, rfl, rfl,
    spec_C7_untrash_collision ⟨some [47, 120], true, true, true, true, false, true, true⟩
      ⟨true, true, true⟩ [47, 120] rfl rfl rfl rfl rfl rfl⟩

/-- C6: when `originalBaseName.suffix.trashinfo` would exceed NAME_MAX,
the base name kept by trash_file is truncated and ends in '~' (126), and
the length of the truncated name plus the suffix length plus the length of
".trashinfo" (10) is at most NAME_MAX (trash.c:389-406).  The second
hypothesis records that the deletion-date suffix is far shorter than
NAME_MAX (gen_date_suffix yields at most 19 bytes), which the in-place
truncation relies on. -/
theorem spec_C6_trash_name_length (filename : List Nat) (suffix_len : Nat)
    (h1 : NAME_MAX < filename.length + 1 + suffix_len + 10)
    (h2 : suffix_len + 12 ≤ NAME_MAX) :
    (trim_trash_filename filename suffix_len).getLast? = some 126 ∧
    (trim_trash_filename filename suffix_len).length + suffix_len + 10 ≤ NAME_MAX := by
  have hpos : ((filename.length : Int) + suffix_len + 11 - NAME_MAX) > 0 := by
    have := h1; unfold NAME_MAX at this ⊢; omega
  constructor
  · rw [trim_trash_filename, if_pos hpos]
    exact List.getLast?_concat _
  · rw [trim_trash_filename, if_pos hpos]
    simp only [List.length_append, List.length_take, List.length_cons, List.length_nil]
    unfold NAME_MAX at h1 h2 ⊢
    omega

/-- Witness for C6: a 250-byte name with a 14-byte suffix. -/
theorem spec_C6_trash_name_length_witness :
    NAME_MAX < (List.replicate 250 97).length + 1 + 14 + 10 ∧
    14 + 12 ≤ NAME_MAX ∧
    ((trim_trash_filename (List.replicate 250 97) 14).getLast? = some 126 ∧
      (trim_trash_filename (List.replicate 250 97) 14).length + 14 + 10 ≤ NAME_MAX) :=
  ⟨by decide, by decide, spec_C6_trash_name_length (List.replicate 250 97) 14 (by decide) (by decide)⟩

/-- Every byte produced by the %d conversion is a decimal digit. -/
theorem natDigitsAux_mem (f : Nat) : ∀ (n : Nat), ∀ b ∈ natDigitsAux f n, 48 ≤ b ∧ b ≤ 57 := by
  induction f with
  | zero => intro n b hb; simp [natDigitsAux] at hb
  | succ f ih =>
    intro n b hb
    rw [natDigitsAux] at hb
    split at hb
    · simp at hb; omega
    · rcases List.mem_append.mp hb with h | h
      · exact ih _ b h
      · simp at h; have : n % 10 < 10 := Nat.mod_lt _ (by omega); omega

/-- No byte of a %d-rendered integer is a newline. -/
theorem fmtD_ne_newline (i : Int) : ∀ b ∈ fmtD i, b ≠ 10 := by
  intro b hb
  rw [fmtD] at hb
  split at hb
  · rcases List.mem_cons.mp hb with h | h
    · omega
    · have := natDigitsAux_mem _ _ b h; omega
  · have := natDigitsAux_mem _ _ b hb; omega

/-- No byte of a percent-encoded path is a newline. -/
theorem url_encode_ne_newline (p : List Nat) : ∀ b ∈ url_encode p, b ≠ 10 := by
  induction p with
  | nil => simp [url_encode]
  | cons x xs ih =>
    intro b hb
    have hx : url_encode (x :: xs) =
        (if urlUnreservedB x then [x] else [37, hexDigit (x / 16), hexDigit (x % 16)]) ++
          url_encode xs := rfl
    rw [hx] at hb
    rcases List.mem_append.mp hb with h | h
    · split at h
      · next hu =>
        simp at h; subst h
        intro hb10; rw [hb10] at hu; simp [urlUnreservedB, isDigitB, isLowerB, isUpperB] at hu
      · simp at h
        rcases h with h | h | h
        · omega
        · rw [h, hexDigit]; split <;> omega
        · rw [h, hexDigit]; split <;> omega
    · exact ih b h

/-- A non-empty path percent-encodes to a non-empty string. -/
theorem url_encode_ne_nil (p : List Nat) (h : p ≠ []) : url_encode p ≠ [] := by
  cases p with
  | nil => exact absurd rfl h
  | cons x xs =>
    have hx : url_encode (x :: xs) =
        (if urlUnreservedB x then [x] else [37, hexDigit (x / 16), hexDigit (x % 16)]) ++
          url_encode xs := rfl
    rw [hx]
    split <;> simp

/-- Reading a newline-free segment followed by a newline produces one
line. -/
theorem split_nl_append (xs : List Nat) (h : ∀ b ∈ xs, b ≠ 10) :
    ∀ (cur rest : List Nat),
      split_nl cur (xs ++ 10 :: rest) = (cur.reverse ++ xs) :: split_nl [] rest := by
  induction xs with
  | nil => intro cur rest; simp [split_nl]
  | cons b bs ih =>
    intro cur rest
    have hb : b ≠ 10 := h b (by simp)
    have h' : ∀ c ∈ bs, c ≠ 10 := fun c hc => h c (by simp [hc])
    rw [List.cons_append, split_nl, if_neg hb, ih h' (b :: cur) rest]
    simp

/-- C8: the bytes trash_file writes to the sidecar (trash.c:462-465) are
exactly the line "[Trash Info]", a "Path=" line holding the
percent-encoded original path, and a "DeletionDate=" line of the form
year-month-dayThour:minute:second; untrash_file's reader recovers the
encoded path from them; and every numeric field is rendered by %d without
zero-padding, so a single-digit value occupies exactly one byte. -/
theorem spec_C8_trashinfo_format (p : List Nat) (tm : Tm) (hp : p ≠ []) :
    lines_of (trashinfo_content p tm) =
      [TRASH_INFO_HEADER,
        PATH_EQ ++ url_encode p,
        DELETIONDATE_EQ ++ fmtD (tm.tm_year + 1900) ++ [45] ++ fmtD (tm.tm_mon + 1) ++ [45] ++
          fmtD tm.tm_mday ++ [84] ++ fmtD tm.tm_hour ++ [58] ++ fmtD tm.tm_min ++ [58] ++
          fmtD tm.tm_sec] ∧
    info_get_path (trashinfo_content p tm) = some (url_encode p) ∧
    (∀ n : Nat, n < 10 → fmtD (n : Int) = [48 + n]) := by
  have hH : ∀ b ∈ TRASH_INFO_HEADER, b ≠ 10 := by decide
  have hPc : ∀ b ∈ PATH_EQ, b ≠ 10 := by decide
  have hDc : ∀ b ∈ DELETIONDATE_EQ, b ≠ 10 := by decide
  have hP : ∀ b ∈ PATH_EQ ++ url_encode p, b ≠ 10 := by
    intro b hb
    rcases List.mem_append.mp hb with h | h
    · exact hPc b h
    · exact url_encode_ne_newline p b h
  have hD : ∀ b ∈ DELETIONDATE_EQ ++ fmtD (tm.tm_year + 1900) ++ [45] ++ fmtD (tm.tm_mon + 1) ++
      [45] ++ fmtD tm.tm_mday ++ [84] ++ fmtD tm.tm_hour ++ [58] ++ fmtD tm.tm_min ++ [58] ++
      fmtD tm.tm_sec, b ≠ 10 := by
    intro b hb
    simp only [List.append_assoc, List.mem_append, List.mem_singleton] at hb
    rcases hb with h | h | h | h | h | h | h | h | h | h | h | h
    · exact hDc b h
    · exact fmtD_ne_newline _ b h
    · omega
    · exact fmtD_ne_newline _ b h
    · omega
    · exact fmtD_ne_newline _ b h
    · omega
    · exact fmtD_ne_newline _ b h
    · omega
    · exact fmtD_ne_newline _ b h
    · omega
    · exact fmtD_ne_newline _ b h
  have hpart3 : ∀ n : Nat, n < 10 → fmtD (n : Int) = [48 + n] := by
    intro n hn
    rw [fmtD, if_neg (by omega)]
    rw [show ((n : Int)).toNat = n from rfl, natDigitsAux, if_pos hn]
  have hcontent : trashinfo_content p tm =
      TRASH_INFO_HEADER ++ 10 :: ((PATH_EQ ++ url_encode p) ++ 10 ::
        ((DELETIONDATE_EQ ++ fmtD (tm.tm_year + 1900) ++ [45] ++ fmtD (tm.tm_mon + 1) ++ [45] ++
          fmtD tm.tm_mday ++ [84] ++ fmtD tm.tm_hour ++ [58] ++ fmtD tm.tm_min ++ [58] ++
          fmtD tm.tm_sec) ++ 10 :: [])) := by
    simp [trashinfo_content, List.append_assoc]
  have hlines : lines_of (trashinfo_content p tm) =
      [TRASH_INFO_HEADER,
        PATH_EQ ++ url_encode p,
        DELETIONDATE_EQ ++ fmtD (tm.tm_year + 1900) ++ [45] ++ fmtD (tm.tm_mon + 1) ++ [45] ++
          fmtD tm.tm_mday ++ [84] ++ fmtD tm.tm_hour ++ [58] ++ fmtD tm.tm_min ++ [58] ++
          fmtD tm.tm_sec] := by
    rw [lines_of, hcontent, split_nl_append _ hH, split_nl_append _ hP, split_nl_append _ hD]
    simp [split_nl]
  refine ⟨hlines, ?_, hpart3⟩
  have hpre1 : PATH_EQ.isPrefixOf TRASH_INFO_HEADER = false := by decide
  have hpre2 : PATH_EQ.isPrefixOf (PATH_EQ ++ url_encode p) = true := by
    simp [PATH_EQ, List.isPrefixOf]
  have hpre3 : PATH_EQ.isPrefixOf (DELETIONDATE_EQ ++ fmtD (tm.tm_year + 1900) ++ [45] ++
      fmtD (tm.tm_mon + 1) ++ [45] ++ fmtD tm.tm_mday ++ [84] ++ fmtD tm.tm_hour ++ [58] ++
      fmtD tm.tm_min ++ [58] ++ fmtD tm.tm_sec) = false := by
    simp [PATH_EQ, DELETIONDATE_EQ, List.isPrefixOf, List.append_assoc]
  have hdrop : (PATH_EQ ++ url_encode p).drop PATH_EQ.length = url_encode p :=
    List.drop_left _ _
  have hne : url_encode p ≠ [] := url_encode_ne_nil p hp
  rw [info_get_path, hlines]
  rw [List.filter_cons_of_neg (by rw [hpre1]; exact Bool.false_ne_true),
    List.filter_cons_of_pos (by rw [hpre2]),
    List.filter_cons_of_neg (by rw [hpre3]; exact Bool.false_ne_true),
    List.filter_nil, List.getLast?_singleton]
  simp only [hdrop, List.isEmpty_eq_false.mpr hne, if_neg, Bool.false_eq_true,
    ite_false]

/-- Witness for C8 at the path "/t" and a concrete timestamp. -/
theorem spec_C8_trashinfo_format_witness :
    ([47, 116] : List Nat) ≠ [] ∧
    info_get_path (trashinfo_content [47, 116] ⟨123, 4, 7, 9, 4, 2⟩) =
      some (url_encode [47, 116]) :=
  ⟨by decide, (spec_C8_trashinfo_format [47, 116] ⟨123, 4, 7, 9, 4, 2⟩ (by decide)).2.1⟩

/-- C5 counterexample: under Name sort (SNAME, no reverse, no dirs-first,
case-sensitive, no light mode) the entry "img2" ([105,109,103,50]) compares
greater than "img10" ([105,109,103,49,48]), so the order produced is
img1, img10, img2 — not the img1, img2, img10 the claim asserts.  The
numeric branch of namecmp only fires when both names start with a digit
after prefix skipping, and these names start with 'i'. -/
theorem spec_C5_counterexample :
    entrycmp ⟨SNAME, false, false, true, false⟩
        ⟨[105, 109, 103, 50], false, 0, 0, 0, 0, 0⟩
        ⟨[105, 109, 103, 49, 48], false, 0, 0, 0, 0, 0⟩ = 1 ∧
    ¬ entrycmp ⟨SNAME, false, false, true, false⟩
        ⟨[105, 109, 103, 50], false, 0, 0, 0, 0, 0⟩
        ⟨[105, 109, 103, 49, 48], false, 0, 0, 0, 0, 0⟩ < 0 := by
  constructor
  · rfl
  · decide

/-- C5 as amended: namecmp compares two names whose leading
(post-prefix-skip) bytes are both decimal digits by the numeric value of
their leading digit runs (so "9f" sorts before "10f"); the names img1,
img2, img10 do not begin with digits, so the digit branch does not apply
to them and Name sort orders them lexically: img1, img10, img2. -/
theorem spec_C5_numeric_name_order :
    (∀ (cs : Bool) (x y : List Nat),
        isDigitB (c0 (skip_name_prefixes x)) = true →
        isDigitB (c0 (skip_name_prefixes y)) = true →
        strtoll10 (skip_name_prefixes x) < strtoll10 (skip_name_prefixes y) →
        namecmp cs x y = -1) ∧
    (∀ (cs : Bool) (x y : List Nat),
        isDigitB (c0 (skip_name_prefixes x)) = true →
        isDigitB (c0 (skip_name_prefixes y)) = true →
        strtoll10 (skip_name_prefixes y) < strtoll10 (skip_name_prefixes x) →
        namecmp cs x y = 1) ∧
    (∀ cs : Bool, namecmp cs [57, 102] [49, 48, 102] = -1) ∧
    (∀ cs : Bool,
        namecmp cs [105, 109, 103, 49] [105, 109, 103, 49, 48] < 0 ∧
        namecmp cs [105, 109, 103, 49] [105, 109, 103, 50] < 0 ∧
        namecmp cs [105, 109, 103, 49, 48] [105, 109, 103, 50] < 0) := by
  refine ⟨?_, ?_, ?_, ?_⟩
  · intro cs x y h1 h2 hlt
    have hne : ¬ strtoll10 (skip_name_prefixes y) < strtoll10 (skip_name_prefixes x) := by omega
    simp [namecmp, h1, h2, hlt]
  · intro cs x y h1 h2 hlt
    have hne : ¬ strtoll10 (skip_name_prefixes x) < strtoll10 (skip_name_prefixes y) := by omega
    simp [namecmp, h1, h2, hlt, hne]
  · intro cs; cases cs <;> decide
  · intro cs; cases cs <;> refine ⟨by decide, by decide, by decide⟩

/-- Witness for C5's amended statement: "9" vs "10" takes the numeric
branch of namecmp. -/
theorem spec_C5_numeric_name_order_witness :
    isDigitB (c0 (skip_name_prefixes [57])) = true ∧
    isDigitB (c0 (skip_name_prefixes [49, 48])) = true ∧
    strtoll10 (skip_name_prefixes [57]) < strtoll10 (skip_name_prefixes [49, 48]) ∧
    namecmp true [57] [49, 48] = -1 :=
  ⟨by decide, by decide, by decide,
    spec_C5_numeric_name_order.1 true [57] [49, 48] (by decide) (by decide) (by decide)⟩

/-- C9: under the Extension sort key (no dirs-first, no reverse), a name
without an extension sorts before a name with one; two names with
extensions compare by the substring after the last dot via strcasecmp
(case-insensitively); and when sort_by_extension ties (including when
neither name has an extension) entrycmp falls through to namecmp
(sort.c:178-202, 299, 306-307). -/
theorem spec_C9_extension_sort (cfg : Conf) (a b : Fileinfo)
    (h1 : cfg.sort = SEXT) (h2 : cfg.list_dirs_first = false) (h3 : cfg.sort_reverse = false) :
    (∀ e, extOf a.name = none → extOf b.name = some e → entrycmp cfg a b = -1) ∧
    (∀ e1 e2, extOf a.name = some e1 → extOf b.name = some e2 →
      strcasecmp e1 e2 ≠ 0 → entrycmp cfg a b = strcasecmp e1 e2) ∧
    (sort_by_extension a.name b.name = 0 →
      entrycmp cfg a b = namecmp cfg.case_sens_list a.name b.name) := by
  have hk : entrycmp cfg a b =
      (if sort_by_extension a.name b.name = 0 then
        namecmp cfg.case_sens_list a.name b.name
      else sort_by_extension a.name b.name) := by
    simp [entrycmp, entrycmp_key_ret, h1, h2, h3]
  refine ⟨?_, ?_, ?_⟩
  · intro e ha hb
    have hval : sort_by_extension a.name b.name = -1 := by
      simp [sort_by_extension, ha, hb]
    rw [hk, hval]; simp
  · intro e1 e2 ha hb hne
    have hval : sort_by_extension a.name b.name = strcasecmp e1 e2 := by
      simp [sort_by_extension, ha, hb]
    rw [hk, hval, if_neg hne]
  · intro h0
    rw [hk, if_pos h0]

/-- Witness for C9: "a" (no extension) sorts before "b.gz". -/
theorem spec_C9_extension_sort_witness :
    (⟨SEXT, false, false, true, false⟩ : Conf).sort = SEXT ∧
    (⟨SEXT, false, false, true, false⟩ : Conf).list_dirs_first = false ∧
    (⟨SEXT, false, false, true, false⟩ : Conf).sort_reverse = false ∧
    extOf ([97] : List Nat) = none ∧
    extOf ([98, 46, 103, 122] : List Nat) = some [103, 122] ∧
    entrycmp ⟨SEXT, false, false, true, false⟩
      ⟨[97], false, 0, 0, 0, 0, 0⟩ ⟨[98, 46, 103, 122], false, 0, 0, 0, 0, 0⟩ = -1 :=
  ⟨rfl, rfl, rfl, by decide, by decide,
    (spec_C9_extension_sort ⟨SEXT, false, false, true, false⟩
        ⟨[97], false, 0, 0, 0, 0, 0⟩ ⟨[98, 46, 103, 122], false, 0, 0, 0, 0, 0⟩
        rfl rfl rfl).1 [103, 122] (by decide) (by decide)⟩

/-- Byte strings are closed under taking subsets. -/
theorem valid_of_subset {x y : List Nat} (h : ∀ b ∈ x, b ∈ y) (hy : ValidName y) :
    ValidName x := fun b hb => hy b (h b hb)

/-- strcmp of two byte strings lies strictly between -256 and 256. -/
theorem strcmp_bound : ∀ (x y : List Nat), ValidName x → ValidName y →
    -256 < strcmp x y ∧ strcmp x y < 256 := by
  intro x
  induction x with
  | nil =>
    intro y _ hy
    cases y with
    | nil => simp [strcmp]
    | cons b bs =>
      have hb : b < 256 := hy b (by simp)
      rw [strcmp]; omega
  | cons a as ih =>
    intro y hx hy
    cases y with
    | nil =>
      have ha : a < 256 := hx a (by simp)
      rw [strcmp]; omega
    | cons b bs =>
      have ha : a < 256 := hx a (by simp)
      have hb : b < 256 := hy b (by simp)
      by_cases hab : a = b
      · rw [strcmp, if_pos hab]
        exact ih bs (fun c hc => hx c (by simp [hc])) (fun c hc => hy c (by simp [hc]))
      · rw [strcmp, if_neg hab]; omega

/-- tolower keeps bytes below 256. -/
theorem valid_map_tolower {x : List Nat} (hx : ValidName x) : ValidName (x.map tolowerB) := by
  intro b hb
  rcases List.mem_map.mp hb with ⟨c, hc, rfl⟩
  have := hx c hc
  rw [tolowerB]; split <;> omega

/-- strcasecmp of two byte strings lies strictly between -256 and 256. -/
theorem strcasecmp_bound (x y : List Nat) (hx : ValidName x) (hy : ValidName y) :
    -256 < strcasecmp x y ∧ strcasecmp x y < 256 := by
  rw [strcasecmp]
  exact strcmp_bound _ _ (valid_map_tolower hx) (valid_map_tolower hy)

/-- skip_name_prefixes yields a byte string again. -/
theorem valid_skip (l : List Nat) (h : ValidName l) : ValidName (skip_name_prefixes l) := by
  rw [skip_name_prefixes]
  split
  · exact h
  · exact valid_of_subset (fun b hb => (List.dropWhile_sublist _).subset hb) h

set_option maxHeartbeats 2000000 in
/-- namecmp of two byte strings lies strictly between -256 and 256: every
branch returns -1, 1, or a strcoll/strcmp value of the skipped strings. -/
theorem namecmp_bound (cs : Bool) (x y : List Nat) (hx : ValidName x) (hy : ValidName y) :
    -256 < namecmp cs x y ∧ namecmp cs x y < 256 := by
  have hx' := valid_skip x hx
  have hy' := valid_skip y hy
  have hcoll : -256 < strcoll (skip_name_prefixes x) (skip_name_prefixes y) ∧
      strcoll (skip_name_prefixes x) (skip_name_prefixes y) < 256 := by
    rw [strcoll]; exact strcmp_bound _ _ hx' hy'
  have hcmp := strcmp_bound (skip_name_prefixes x) (skip_name_prefixes y) hx' hy'
  obtain ⟨hc1, hc2⟩ := hcoll
  obtain ⟨hm1, hm2⟩ := hcmp
  rw [namecmp]
  dsimp only
  split_ifs <;> constructor <;> omega

/-- The spec-modelled natural version comparison only returns -1, 0, 1. -/
theorem natvers_go_range : ∀ (f : Nat) (x y : List Nat),
    natvers_go f x y = -1 ∨ natvers_go f x y = 0 ∨ natvers_go f x y = 1 := by
  intro f
  induction f with
  | zero => intro x y; right; left; rfl
  | succ f ih =>
    intro x y
    cases x with
    | nil =>
      cases y with
      | nil => right; left; rfl
      | cons b bs => left; rfl
    | cons a as =>
      cases y with
      | nil => right; right; rfl
      | cons b bs =>
        rw [natvers_go]
        dsimp only
        repeat' split
        any_goals exact ih _ _
        · left; rfl
        · right; right; rfl
        · left; rfl
        · right; right; rfl

/-- Extensions extracted by extOf are byte strings again. -/
theorem valid_ext {n e : List Nat} (hn : ValidName n) (he : extOf n = some e) :
    ValidName e := by
  rw [extOf] at he
  split at he
  · injection he with he'
    refine valid_of_subset (fun b hb => ?_) hn
    rw [← he'] at hb
    rw [List.mem_reverse] at hb
    have := (List.takeWhile_sublist _).subset hb
    rwa [List.mem_reverse] at this
  · exact absurd he (by simp)

/-- sort_by_extension of two byte strings lies strictly between -256 and
256. -/
theorem sort_by_extension_bound (n1 n2 : List Nat) (h1 : ValidName n1) (h2 : ValidName n2) :
    -256 < sort_by_extension n1 n2 ∧ sort_by_extension n1 n2 < 256 := by
  rw [sort_by_extension]
  cases hA : extOf n1 with
  | none =>
    cases hB : extOf n2 with
    | none => norm_num
    | some e2 => norm_num
  | some e1 =>
    cases hB : extOf n2 with
    | none => norm_num
    | some e2 => exact strcasecmp_bound e1 e2 (valid_ext h1 hA) (valid_ext h2 hB)

/-- The pre-reverse comparator value of entrycmp lies strictly between
-256 and 256; in particular it is never the signed-integer minimum. -/
theorem entrycmp_key_ret_bound (cfg : Conf) (a b : Fileinfo)
    (ha : ValidName a.name) (hb : ValidName b.name) :
    -256 < entrycmp_key_ret cfg a b ∧ entrycmp_key_ret cfg a b < 256 := by
  have hname := namecmp_bound cfg.case_sens_list a.name b.name ha hb
  obtain ⟨hn1, hn2⟩ := hname
  have hvers : -2 < xstrverscmp a.name b.name ∧ xstrverscmp a.name b.name < 2 := by
    rw [xstrverscmp]
    rcases natvers_go_range (a.name.length + b.name.length + 1) a.name b.name with h | h | h <;>
      rw [h] <;> norm_num
  obtain ⟨hv1, hv2⟩ := hvers
  have hext := sort_by_extension_bound a.name b.name ha hb
  obtain ⟨he1, he2⟩ := hext
  rw [entrycmp_key_ret]
  repeat' split
  all_goals first
    | omega
    | (rw [sort_by_size]; split_ifs <;> omega)
    | (rw [sort_by_time]; split_ifs <;> omega)
    | (rw [sort_by_inode]; split_ifs <;> omega)
    | (rw [sort_by_owner]; split_ifs <;> omega)
    | (rw [sort_by_group]; split_ifs <;> omega)

/-- A 32-bit in-range integer is unchanged by the 32-bit reduction. -/
theorem toInt32_eq_self (n : Int) (h1 : -(2 ^ 31) ≤ n) (h2 : n < 2 ^ 31) :
    toInt32 n = n := by
  rw [toInt32, Int.emod_eq_of_lt (by omega) (by omega)]
  omega

/-- For comparator-sized values, `ret - (ret * 2)` is plain negation. -/
theorem rev_ret_eq_neg (r : Int) (h1 : -256 < r) (h2 : r < 256) : rev_ret r = -r := by
  rw [rev_ret, toInt32_eq_self (r * 2) (by omega) (by omega),
    toInt32_eq_self (r - r * 2) (by omega) (by omega)]
  omega

/-- The key comparator does not read conf.sort_reverse. -/
theorem entrycmp_key_ret_reverse (cfg : Conf) (rev : Bool) (a b : Fileinfo) :
    entrycmp_key_ret { cfg with sort_reverse := rev } a b = entrycmp_key_ret cfg a b := rfl

/-- C1 counterexample: with list_dirs_first enabled, a directory A and a
non-directory B under Name sort, entrycmp returns -1 both with
sort_reverse off and with sort_reverse on — the directories-first result
is returned before the reverse step (sort.c:283-287) — so the two results
do not have opposite signs and are not both zero. -/
theorem spec_C1_counterexample :
    entrycmp ⟨SNAME, false, true, true, false⟩
        ⟨[97], true, 0, 0, 0, 0, 0⟩ ⟨[98], false, 0, 0, 0, 0, 0⟩ = -1 ∧
    entrycmp ⟨SNAME, true, true, true, false⟩
        ⟨[97], true, 0, 0, 0, 0, 0⟩ ⟨[98], false, 0, 0, 0, 0, 0⟩ = -1 ∧
    ¬ ((entrycmp ⟨SNAME, false, true, true, false⟩
          ⟨[97], true, 0, 0, 0, 0, 0⟩ ⟨[98], false, 0, 0, 0, 0, 0⟩ < 0 ∧
        0 < entrycmp ⟨SNAME, true, true, true, false⟩
          ⟨[97], true, 0, 0, 0, 0, 0⟩ ⟨[98], false, 0, 0, 0, 0, 0⟩) ∨
      (0 < entrycmp ⟨SNAME, false, true, true, false⟩
          ⟨[97], true, 0, 0, 0, 0, 0⟩ ⟨[98], false, 0, 0, 0, 0, 0⟩ ∧
        entrycmp ⟨SNAME, true, true, true, false⟩
          ⟨[97], true, 0, 0, 0, 0, 0⟩ ⟨[98], false, 0, 0, 0, 0, 0⟩ < 0) ∨
      (entrycmp ⟨SNAME, false, true, true, false⟩
          ⟨[97], true, 0, 0, 0, 0, 0⟩ ⟨[98], false, 0, 0, 0, 0, 0⟩ = 0 ∧
        entrycmp ⟨SNAME, true, true, true, false⟩
          ⟨[97], true, 0, 0, 0, 0, 0⟩ ⟨[98], false, 0, 0, 0, 0, 0⟩ = 0)) := by
  refine ⟨rfl, rfl, ?_⟩
  decide

/-- C1 as amended: for byte-valued names, whenever directories-first is
disabled or the two entries have the same directory flag, flipping
sort_reverse negates the comparator result exactly (hence opposite signs,
or both zero); and the value fed to the reverse step lies strictly between
-256 and 256, so the negation `ret - (ret * 2)` never operates on the
signed-integer minimum and cannot overflow. -/
theorem spec_C1_reverse_negation (cfg : Conf) (a b : Fileinfo)
    (hd : cfg.list_dirs_first = false ∨ a.dir = b.dir)
    (ha : ValidName a.name) (hb : ValidName b.name) :
    entrycmp { cfg with sort_reverse := true } a b =
      - entrycmp { cfg with sort_reverse := false } a b ∧
    -256 < entrycmp_key_ret cfg a b ∧ entrycmp_key_ret cfg a b < 256 := by
  have hk := entrycmp_key_ret_bound cfg a b ha hb
  have hdz : (if cfg.list_dirs_first then sort_dirs a.dir b.dir else 0) = 0 := by
    rcases hd with h | h
    · simp [h]
    · simp [sort_dirs, h]
  refine ⟨?_, hk⟩
  have e1 : entrycmp { cfg with sort_reverse := true } a b =
      rev_ret (entrycmp_key_ret cfg a b) := by
    rw [entrycmp]
    dsimp only
    rw [hdz, entrycmp_key_ret_reverse]
    simp
  have e2 : entrycmp { cfg with sort_reverse := false } a b =
      entrycmp_key_ret cfg a b := by
    rw [entrycmp]
    dsimp only
    rw [hdz, entrycmp_key_ret_reverse]
    simp
  rw [e1, e2, rev_ret_eq_neg _ hk.1 hk.2]

/-- Witness for C1's amended statement at a concrete configuration. -/
theorem spec_C1_reverse_negation_witness :
    ((⟨SNAME, false, false, true, false⟩ : Conf).list_dirs_first = false ∨
      (⟨[97], false, 0, 0, 0, 0, 0⟩ : Fileinfo).dir = (⟨[98], false, 0, 0, 0, 0, 0⟩ : Fileinfo).dir) ∧
    ValidName [97] ∧ ValidName [98] ∧
    (entrycmp { (⟨SNAME, false, false, true, false⟩ : Conf) with sort_reverse := true }
        ⟨[97], false, 0, 0, 0, 0, 0⟩ ⟨[98], false, 0, 0, 0, 0, 0⟩ =
      - entrycmp { (⟨SNAME, false, false, true, false⟩ : Conf) with sort_reverse := false }
        ⟨[97], false, 0, 0, 0, 0, 0⟩ ⟨[98], false, 0, 0, 0, 0, 0⟩ ∧
    -256 < entrycmp_key_ret ⟨SNAME, false, false, true, false⟩
        ⟨[97], false, 0, 0, 0, 0, 0⟩ ⟨[98], false, 0, 0, 0, 0, 0⟩ ∧
      entrycmp_key_ret ⟨SNAME, false, false, true, false⟩
        ⟨[97], false, 0, 0, 0, 0, 0⟩ ⟨[98], false, 0, 0, 0, 0, 0⟩ < 256) :=
  ⟨Or.inl rfl, by unfold ValidName; decide, by unfold ValidName; decide,
    spec_C1_reverse_negation ⟨SNAME, false, false, true, false⟩
      ⟨[97], false, 0, 0, 0, 0, 0⟩ ⟨[98], false, 0, 0, 0, 0, 0⟩
      (Or.inl rfl) (by unfold ValidName; decide) (by unfold ValidName; decide)⟩

end Clifm

